import Mathlib

/-!
Verification of the loggio enhanced logging module (`src/enhanced_logger.py`).

The development shallowly embeds the message-formatting pipeline
(`EnhancedLogger._format_message`), the colored terminal formatter
(`ColoredFormatter.format`) and the timezone-aware timestamp fallback of the
published package.  Python values that may appear as logging arguments are
modelled by the inductive type `PyVal`; Python strings are Lean `String`s
(length counts characters, as Python `len` does); machine-level concerns
(floats, object identity, memory addresses) are out of scope, so `PyVal` has
no float constructor and opaque objects carry their `str()` text explicitly.
-/

/-- Model of a Python value that can be passed as a logging argument.
`obj rep` stands for an arbitrary non-JSON-serializable object whose
`str()`/`repr()` text is `rep` (Python's default object repr includes a memory
address, which is not modellable; the embedding carries the text directly). -/
inductive PyVal where
  | str (s : String)
  | int (n : Int)
  | bool (b : Bool)
  | none
  | list (xs : List PyVal)
  | dict (kvs : List (PyVal × PyVal))
  | obj (rep : String)

/-- Python type name of a value, as it appears in error messages
(`type(v).__name__`).  For `obj` the embedding uses the generic name
`object`. -/
def pyTypeName : PyVal → String
  | .str _ => "str"
  | .int _ => "int"
  | .bool _ => "bool"
  | .none => "NoneType"
  | .list _ => "list"
  | .dict _ => "dict"
  | .obj _ => "object"

/-- Escape a backslash or the quote character `q`, as Python `repr` does for
strings (control-character escapes are not modelled; the development only
evaluates `repr` on strings without control characters). -/
def reprEscape (q : Char) : List Char → List Char
  | [] => []
  | c :: rest =>
    if c = '\\' then '\\' :: '\\' :: reprEscape q rest
    else if c = q then '\\' :: q :: reprEscape q rest
    else c :: reprEscape q rest

/-- Python `repr` of a string: single-quoted, except double-quoted when the
string contains a single quote and no double quote. -/
def pyReprStr (s : String) : String :=
  if s.data.contains '\x27' && !s.data.contains '"' then
    "\"" ++ String.mk (reprEscape '"' s.data) ++ "\""
  else
    "\x27" ++ String.mk (reprEscape '\x27' s.data) ++ "\x27"

mutual

/-- Python `repr` of a value (`repr(v)`). -/
def pyRepr : PyVal → String
  | .str s => pyReprStr s
  | .int n => toString n
  | .bool b => if b then "True" else "False"
  | .none => "None"
  | .list xs => "[" ++ pyReprItems xs ++ "]"
  | .dict kvs => "\x7b" ++ pyReprPairs kvs ++ "\x7d"
  | .obj rep => rep

/-- Comma-separated `repr`s of list elements. -/
def pyReprItems : List PyVal → String
  | [] => ""
  | [x] => pyRepr x
  | x :: xs => pyRepr x ++ ", " ++ pyReprItems xs

/-- Comma-separated `repr`s of dict entries. -/
def pyReprPairs : List (PyVal × PyVal) → String
  | [] => ""
  | [(k, v)] => pyRepr k ++ ": " ++ pyRepr v
  | (k, v) :: kvs => pyRepr k ++ ": " ++ pyRepr v ++ ", " ++ pyReprPairs kvs

end

/-- Python `str` of a value (`str(v)`): identity on strings, `repr` on
everything else among the modelled constructors. -/
def pyStr : PyVal → String
  | .str s => s
  | v => pyRepr v

/-- Python `str` of a tuple of values, as produced by an f-string
`f"...\x7bargs\x7d"`: parenthesised comma-separated `repr`s, with the trailing
comma of one-element tuples. -/
def pyStrTuple (args : List PyVal) : String :=
  match args with
  | [x] => "(" ++ pyRepr x ++ ",)"
  | _ => "(" ++ String.intercalate ", " (args.map pyRepr) ++ ")"

/-- Escape a character for a JSON string literal (backslash, quote and the
common control characters; other characters are passed through). -/
def jsonEscapeChar (c : Char) : List Char :=
  if c = '\\' then ['\\', '\\']
  else if c = '"' then ['\\', '"']
  else if c = '\n' then ['\\', 'n']
  else if c = '\t' then ['\\', 't']
  else if c = '\r' then ['\\', 'r']
  else [c]

/-- JSON string literal for `s`, double-quoted and escaped. -/
def jsonQuote (s : String) : String :=
  "\"" ++ String.mk (s.data.flatMap jsonEscapeChar) ++ "\""

/-- Indentation of `json.dumps(..., indent=4)` at nesting level `lvl`. -/
def indentOf (lvl : Nat) : String :=
  String.mk (List.replicate (4 * lvl) ' ')

/-- Render a JSON array from already-encoded items, `indent=4` style, where
`lvl` is the nesting level of the array itself. -/
def joinArr (lvl : Nat) (items : List String) : String :=
  match items with
  | [] => "[]"
  | _ => "[\n" ++ indentOf (lvl + 1) ++
      String.intercalate (",\n" ++ indentOf (lvl + 1)) items ++
      "\n" ++ indentOf lvl ++ "]"

/-- Render a JSON object from already-encoded `key: value` entries,
`indent=4` style, where `lvl` is the nesting level of the object itself. -/
def joinObj (lvl : Nat) (entries : List String) : String :=
  match entries with
  | [] => "\x7b\x7d"
  | _ => "\x7b\n" ++ indentOf (lvl + 1) ++
      String.intercalate (",\n" ++ indentOf (lvl + 1)) entries ++
      "\n" ++ indentOf lvl ++ "\x7d"

/-- JSON text of a dict key: string keys are used directly; `int`, `bool` and
`None` keys are coerced to strings as Python's `json` module does; container
and object keys raise `TypeError` (the `default=str` fallback is not applied
to keys). -/
def jsonKeyText : PyVal → Except String String
  | .str s => .ok (jsonQuote s)
  | .int n => .ok (jsonQuote (toString n))
  | .bool b => .ok (jsonQuote (if b then "true" else "false"))
  | .none => .ok (jsonQuote "null")
  | k => .error ("keys must be str, int, float, bool or None, not " ++ pyTypeName k)

mutual

/-- Embedding of `json.dumps(v, indent=4, default=str)` at nesting level
`lvl`: primitives serialize natively, non-serializable objects fall back to
their `str()` text (encoded as a JSON string), containers recurse with
increased indentation, and a non-primitive dict key raises `TypeError`,
which surfaces as the `.error` branch. -/
def jsonEnc (lvl : Nat) : PyVal → Except String String
  | .str s => .ok (jsonQuote s)
  | .int n => .ok (toString n)
  | .bool b => .ok (if b then "true" else "false")
  | .none => .ok "null"
  | .obj rep => .ok (jsonQuote rep)
  | .list xs =>
    match jsonEncItems (lvl + 1) xs with
    | .error e => .error e
    | .ok items => .ok (joinArr lvl items)
  | .dict kvs =>
    match jsonEncPairs (lvl + 1) kvs with
    | .error e => .error e
    | .ok entries => .ok (joinObj lvl entries)

/-- Encode the elements of a JSON array, stopping at the first failure. -/
def jsonEncItems (lvl : Nat) : List PyVal → Except String (List String)
  | [] => .ok []
  | v :: rest =>
    match jsonEnc lvl v with
    | .error e => .error e
    | .ok s =>
      match jsonEncItems lvl rest with
      | .error e => .error e
      | .ok ss => .ok (s :: ss)

/-- Encode the entries of a JSON object, stopping at the first failure. -/
def jsonEncPairs (lvl : Nat) : List (PyVal × PyVal) → Except String (List String)
  | [] => .ok []
  | (k, v) :: rest =>
    match jsonKeyText k with
    | .error e => .error e
    | .ok ks =>
      match jsonEnc lvl v with
      | .error e => .error e
      | .ok s =>
        match jsonEncPairs lvl rest with
        | .error e => .error e
        | .ok ss => .ok ((ks ++ ": " ++ s) :: ss)

end

/-- Embedding of the call `json.dumps(arg, indent=4, default=str)` made by
`EnhancedLogger._format_message` (enhanced_logger.py line 333). -/
def pyJsonDumps (v : PyVal) : Except String String :=
  jsonEnc 0 v

/-- Embedding of Python's printf-style `template % args` for the specifier
forms this repository's templates use: `%s` (via `str`), `%d` (integers and
booleans) and the literal `%%`.  Width/precision flags and the other
conversion types are not used by the repository and are modelled as the
`ValueError` branch; the detail text of that branch is abbreviated (CPython
also reports the offending character and its index), while the `TypeError`
texts are reproduced exactly. -/
def pyPrintf : List Char → List PyVal → Except String (List Char)
  | [], [] => .ok []
  | [], _ :: _ => .error "not all arguments converted during string formatting"
  | '%' :: '%' :: rest, args =>
    match pyPrintf rest args with
    | .error e => .error e
    | .ok s => .ok ('%' :: s)
  | '%' :: 's' :: rest, args =>
    match args with
    | [] => .error "not enough arguments for format string"
    | a :: args2 =>
      match pyPrintf rest args2 with
      | .error e => .error e
      | .ok s => .ok ((pyStr a).data ++ s)
  | '%' :: 'd' :: rest, args =>
    match args with
    | [] => .error "not enough arguments for format string"
    | a :: args2 =>
      match a with
      | .int n =>
        match pyPrintf rest args2 with
        | .error e => .error e
        | .ok s => .ok ((toString n).data ++ s)
      | .bool b =>
        match pyPrintf rest args2 with
        | .error e => .error e
        | .ok s => .ok ((if b then "1" else "0").data ++ s)
      | _ => .error ("%d format: a real number is required, not " ++ pyTypeName a)
  | ['%'], _ => .error "incomplete format"
  | '%' :: c :: _, _ => .error ("unsupported format character " ++ pyReprStr (String.mk [c]))
  | c :: rest, args =>
    match pyPrintf rest args with
    | .error e => .error e
    | .ok s => .ok (c :: s)

/-- Instance configuration read by `_format_message`: the `truncate` and
`truncate_length` fields of `EnhancedLogger` (the only instance state the
method consults).  Lengths are modelled as naturals, matching Python's
non-negative `len`. -/
structure LoggerCfg where
  truncate : Bool
  truncate_length : Nat

/-- Message returned when the JSON stage raises
(enhanced_logger.py line 337): the f-string
`"... - [JSON FORMAT ERROR: ...] - Args: ..."` over the original `args`. -/
def jsonErrorMsg (message : String) (e : String) (args : List PyVal) : String :=
  message ++ " - [JSON FORMAT ERROR: " ++ e ++ "] - Args: " ++ pyStrTuple args

/-- Message assigned when interpolation raises
(enhanced_logger.py lines 345-347): the f-string
`"... - [FORMAT ERROR: ...] - Args: ..."` over `formatted_args`. -/
def formatErrorMsg (message : String) (e : String) (formatted_args : List PyVal) : String :=
  message ++ " - [FORMAT ERROR: " ++ e ++ "] - Args: " ++ pyStrTuple formatted_args

/-- JSON stage of `_format_message` (lines 329-337): when `json_format` is
set and `args` is truthy, each argument is independently encoded with
`json.dumps(arg, indent=4, default=str)`; the first failure aborts the
stage.  Otherwise `formatted_args` is `args` unchanged. -/
def jsonStage (json_format : Bool) (args : List PyVal) : Except String (List PyVal) :=
  if json_format && !args.isEmpty then
    match jsonEncItems 0 args with
    | .error e => .error e
    | .ok encs => .ok (encs.map PyVal.str)
  else .ok args

/-- Interpolation stage of `_format_message` (lines 339-347): when
`formatted_args` is truthy, apply `message % formatted_args`, catching
`TypeError`/`ValueError` into the FORMAT-ERROR-annotated message.  With an
empty argument tuple the template passes through verbatim. -/
def interpStage (message : String) (formatted_args : List PyVal) : String :=
  if !formatted_args.isEmpty then
    match pyPrintf message.data formatted_args with
    | .ok s => String.mk s
    | .error e => formatErrorMsg message e formatted_args
  else message

/-- User-context stage of `_format_message` (lines 349-351): when
`user_context` is truthy and has a `"uid"` key, prefix `"uid: "` using the
`str` of the uid value. -/
def userCtxStage (user_context : Option (List (String × PyVal))) (message : String) : String :=
  match user_context with
  | Option.none => message
  | some uc =>
    if !uc.isEmpty && (uc.lookup "uid").isSome then
      pyStr ((uc.lookup "uid").getD PyVal.none) ++ ": " ++ message
    else message

/-- Truncation suffix appended by `_format_message` (line 362), where
`origLen` is the pre-truncation character count. -/
def truncSuffix (origLen : Nat) : String :=
  "... [TRUNCATED, LENGTH: " ++ toString origLen ++ "]"

/-- Truncation stage of `_format_message` (lines 353-364): the effective
flag and limit are the per-call parameters when explicitly given (not
`None`), else the instance defaults; a message longer than the limit is
replaced by its first `max_length` characters plus the truncation suffix. -/
def truncStage (self : LoggerCfg) (truncate : Option Bool)
    (truncate_length : Option Nat) (message : String) : String :=
  let should_truncate := truncate.getD self.truncate
  let max_length := truncate_length.getD self.truncate_length
  if should_truncate ∧ message.length > max_length then
    String.mk (message.data.take max_length) ++ truncSuffix message.length
  else message

/-- Embedding of `EnhancedLogger._format_message` (lines 302-364): the JSON
stage either aborts the whole call with the JSON-error message or produces
`formatted_args`; the interpolation, user-context and truncation stages are
then applied in order. -/
def formatMessage (self : LoggerCfg) (message : String) (args : List PyVal)
    (user_context : Option (List (String × PyVal))) (json_format : Bool)
    (truncate : Option Bool) (truncate_length : Option Nat) : String :=
  match jsonStage json_format args with
  | .error e => jsonErrorMsg message e args
  | .ok formatted_args =>
    truncStage self truncate truncate_length
      (userCtxStage user_context (interpStage message formatted_args))


namespace Colors

/-- ANSI color codes of class `Colors` (enhanced_logger.py lines 9-37);
the constants the `ColoredFormatter` uses. -/
def RESET : String := "\x1b[0m"

/-- Bold style code. -/
def BOLD : String := "\x1b[1m"

/-- Cyan foreground. -/
def CYAN : String := "\x1b[36m"

/-- White foreground. -/
def WHITE : String := "\x1b[37m"

/-- Bright red foreground. -/
def BRIGHT_RED : String := "\x1b[91m"

/-- Bright green foreground. -/
def BRIGHT_GREEN : String := "\x1b[92m"

/-- Bright yellow foreground. -/
def BRIGHT_YELLOW : String := "\x1b[93m"

/-- Bright blue foreground. -/
def BRIGHT_BLUE : String := "\x1b[94m"

/-- Red background. -/
def BG_RED : String := "\x1b[41m"

end Colors

/-- Fields of a `logging.LogRecord` that the repository's format string
renders.  `asctime` is the already-rendered timestamp text (timestamp
rendering is the timezone component, modelled separately). -/
structure LogRecord where
  levelno : Nat
  levelname : String
  asctime : String
  filename : String
  lineno : Nat
  message : String

/-- Segment of a percent-style format string: a literal run or a
`%(name)conv` field reference. -/
inductive Seg where
  | lit (cs : List Char)
  | field (name : List Char) (conv : Char)

/-- Fuel-driven scanner for percent-style format strings: recognizes
`%(name)conv` field references and `%%`; any other `%`-sequence is kept
literally (the repository's format strings contain only the recognized
forms).  The fuel is instantiated with the input length, which suffices
since every step consumes at least one character. -/
def tokAux : Nat → List Char → List Seg
  | 0, _ => []
  | _ + 1, [] => []
  | fuel + 1, '%' :: rest =>
    match rest with
    | '(' :: rest2 =>
      let name := rest2.takeWhile (fun c => c != ')')
      match rest2.dropWhile (fun c => c != ')') with
      | ')' :: conv :: rest3 => Seg.field name conv :: tokAux fuel rest3
      | _ => []
    | '%' :: rest2 => Seg.lit ['%'] :: tokAux fuel rest2
    | c :: rest2 => Seg.lit ['%', c] :: tokAux fuel rest2
    | [] => []
  | fuel + 1, c :: rest => Seg.lit [c] :: tokAux fuel rest

/-- Tokenize a format string. -/
def tokenize (l : List Char) : List Seg :=
  tokAux (l.length + 1) l

/-- Text substituted for a `%(name)conv` reference by `fmt % record`:
the five fields the repository's format string uses (`lineno` through its
decimal rendering).  References outside this set produce no text (real
Python would raise; the repository never constructs such a format). -/
def fieldText (r : LogRecord) (name : List Char) (conv : Char) : List Char :=
  if name = "levelname".data ∧ conv = 's' then r.levelname.data
  else if name = "asctime".data ∧ conv = 's' then r.asctime.data
  else if name = "filename".data ∧ conv = 's' then r.filename.data
  else if name = "lineno".data ∧ conv = 'd' then (toString r.lineno).data
  else if name = "message".data ∧ conv = 's' then r.message.data
  else []

/-- Render tokenized segments against a record. -/
def renderSegs (r : LogRecord) : List Seg → List Char
  | [] => []
  | Seg.lit cs :: rest => cs ++ renderSegs r rest
  | Seg.field name conv :: rest => fieldText r name conv ++ renderSegs r rest

/-- Embedding of `logging`'s percent-style formatting `fmt % record`,
as performed by `logging.Formatter.format` on the style's format string. -/
def pctFormat (fmt : String) (r : LogRecord) : String :=
  String.mk (renderSegs r (tokenize fmt.data))

/-- Embedding of Python's `str.replace` (all non-overlapping occurrences,
left to right), fuel-driven; the fuel is the input length plus one, which
suffices because every step consumes at least one character (the repository
never calls it with an empty pattern). -/
def pyStrReplaceAux : Nat → List Char → List Char → List Char → List Char
  | 0, _, _, _ => []
  | _ + 1, [], _, _ => []
  | fuel + 1, c :: rest, old, new =>
    if old.isPrefixOf (c :: rest) then
      new ++ pyStrReplaceAux fuel ((c :: rest).drop old.length) old new
    else c :: pyStrReplaceAux fuel rest old new

/-- Python `s.replace(old, new)`. -/
def pyStrReplace (s old new : String) : String :=
  String.mk (pyStrReplaceAux (s.data.length + 1) s.data old.data new.data)

/-- `ColoredFormatter.LEVEL_COLORS.get(levelno, Colors.RESET)`
(enhanced_logger.py lines 44-50 and 78): the five standard levels map to
their colors, any other severity falls back to the reset sequence. -/
def LEVEL_COLORS_get (levelno : Nat) : String :=
  if levelno = 10 then Colors.BRIGHT_BLUE
  else if levelno = 20 then Colors.BRIGHT_GREEN
  else if levelno = 30 then Colors.BRIGHT_YELLOW
  else if levelno = 40 then Colors.BRIGHT_RED
  else if levelno = 50 then Colors.BG_RED ++ Colors.WHITE ++ Colors.BOLD
  else Colors.RESET

/-- The mutable state of a `ColoredFormatter` that `format` touches:
`self._style._fmt` and `self.use_colors`. -/
structure ColoredFormatter where
  fmt : String
  use_colors : Bool

/-- The format string both `EnhancedLogger.__init__` and `reconfigure`
install (lines 210 and 279). -/
def base_format : String :=
  "%(levelname)s:[%(asctime)s]%(filename)s:%(lineno)d:%(message)s"

/-- Embedding of `ColoredFormatter.format` (lines 64-99).  The returned
triple is (formatted string, formatter state after the call, record after
the call): the format string is saved and restored around the call, while
the record's `levelname` is overwritten in place with its colorized form
when colors are enabled. -/
def ColoredFormatter.format (self : ColoredFormatter) (record : LogRecord) :
    String × ColoredFormatter × LogRecord :=
  let original_format := self.fmt
  if self.use_colors then
    let level_color := LEVEL_COLORS_get record.levelno
    let record := { record with
      levelname := level_color ++ record.levelname ++ Colors.RESET }
    let file_info := Colors.CYAN ++ "%(filename)s:%(lineno)d" ++ Colors.RESET
    let fmt1 := pyStrReplace original_format "%(filename)s:%(lineno)d" file_info
    let time_info := Colors.BOLD ++ "%(asctime)s" ++ Colors.RESET
    let fmt2 := pyStrReplace fmt1 "%(asctime)s" time_info
    (pctFormat fmt2 record, { self with fmt := original_format }, record)
  else
    (pctFormat self.fmt record, { self with fmt := original_format }, record)

/-- Skip up to and including the next `m`, the terminator of an ANSI
styling sequence. -/
def dropToM : List Char → List Char
  | [] => []
  | c :: rest => if c = 'm' then rest else dropToM rest

/-- Fuel-driven ANSI stripper: an escape character starts a styling
sequence, which runs to the next `m`. -/
def stripAux : Nat → List Char → List Char
  | 0, _ => []
  | _ + 1, [] => []
  | fuel + 1, c :: rest =>
    if c = '\x1b' then stripAux fuel (dropToM rest) else c :: stripAux fuel rest

/-- Strip all ANSI escape sequences from a character list. -/
def stripAnsiL (l : List Char) : List Char :=
  stripAux (l.length + 1) l

/-- Strip all ANSI escape sequences from a string (the spec's
decorate-then-strip round-trip operation). -/
def stripAnsi (s : String) : String :=
  String.mk (stripAnsiL s.data)

/-- Modelled from the spec: the timezone-aware timestamp rendering of the
published package's `ColoredFormatter` (its `timezone` attribute and
`formatTime` fallback).  The source file implementing it is not present in
this tree — only its tests and demo callers are — so the behavior follows
the spec's §4.2: an absent zone delegates to local-time formatting; a valid
zone formats in that zone; an invalid zone emits one diagnostic, permanently
clears the stored zone on the instance and falls back to local time.  Zone
resolution and the two platform formatters are passed in as parameters;
the second component of the result collects the diagnostics the call emits. -/
structure TZFormatter where
  timezone : Option String

/-- Modelled from the spec: one timestamp rendering call on a
`TZFormatter`.  `isValid` stands for zone-name resolution, `localText` for
platform local-time formatting of the instant, `zoneText` for zone-adjusted
formatting.  Returns the rendered text, the diagnostics emitted by this
call, and the instance state after the call; it is a total function, so a
resolution failure never raises to the caller. -/
def TZFormatter.formatTime (isValid : String → Bool)
    (localText : Nat → String) (zoneText : String → Nat → String)
    (self : TZFormatter) (instant : Nat) : String × List String × TZFormatter :=
  match self.timezone with
  | Option.none => (localText instant, [], self)
  | some z =>
    if isValid z then (zoneText z instant, [], self)
    else
      (localText instant,
       ["WARNING: Unknown timezone " ++ pyReprStr z ++ ", falling back to local time"],
       { self with timezone := Option.none })

/-- Auxiliary: appending strings concatenates their character lists. -/
theorem strData_append (p q : String) : (p ++ q).data = p.data ++ q.data :=
  rfl

/-- C4: a message of length L reaching the truncation stage with the
effective flag set and effective limit M is, when L > M, replaced by its
first M characters followed by the truncation suffix recording L, making
the result exactly M plus the suffix length long; when L is at most M the
message is returned unchanged.  The effective flag and limit are the
per-call parameters when explicitly given, else the instance defaults. -/
theorem C4_truncation (cfg : LoggerCfg) (tr : Option Bool) (tl : Option Nat)
    (m : String) :
    (tr.getD cfg.truncate = true → m.length > tl.getD cfg.truncate_length →
      truncStage cfg tr tl m
        = String.mk (m.data.take (tl.getD cfg.truncate_length)) ++ truncSuffix m.length ∧
      (truncStage cfg tr tl m).length
        = tl.getD cfg.truncate_length + (truncSuffix m.length).length) ∧
    (m.length ≤ tl.getD cfg.truncate_length → truncStage cfg tr tl m = m) := by
  unfold truncStage
  constructor
  · intro hflag hlen
    rw [if_pos ⟨by simp [hflag], hlen⟩]
    refine ⟨rfl, ?_⟩
    rw [String.length_append, String.length_mk, List.length_take]
    have : m.data.length = m.length := rfl
    omega
  · intro hle
    rw [if_neg]
    intro h
    omega

/-- C4 witness: the spec's concrete scenario, a 100-character message with
per-call limit 20 against instance defaults (true, 5000): the result is the
20-character prefix plus the suffix naming length 100, and a short message
passes unchanged. -/
theorem C4_truncation_witness :
    truncStage ⟨true, 5000⟩ (some true) (some 20) (String.mk (List.replicate 100 'A'))
      = String.mk ((String.mk (List.replicate 100 'A')).data.take 20)
        ++ truncSuffix (String.mk (List.replicate 100 'A')).length ∧
    (truncStage ⟨true, 5000⟩ (some true) (some 20) (String.mk (List.replicate 100 'A'))).length
      = 20 + (truncSuffix (String.mk (List.replicate 100 'A')).length).length ∧
    truncStage ⟨true, 5000⟩ (some true) (some 20) "short" = "short" := by
  refine ⟨?_, ?_, ?_⟩
  · exact ((C4_truncation ⟨true, 5000⟩ (some true) (some 20) _).1 rfl (by decide)).1
  · exact ((C4_truncation ⟨true, 5000⟩ (some true) (some 20) _).1 rfl (by decide)).2
  · exact (C4_truncation ⟨true, 5000⟩ (some true) (some 20) "short").2 (by decide)

/-- C7: with an empty argument tuple the template passes through the JSON
and interpolation stages verbatim (no specifier expansion is attempted, so
literal percent characters cannot be mis-parsed and the interpolation error
branch cannot trigger), and the result is the template subjected only to
the user-context and truncation stages. -/
theorem C7_empty_args (cfg : LoggerCfg) (m : String)
    (uc : Option (List (String × PyVal))) (jf : Bool)
    (tr : Option Bool) (tl : Option Nat) :
    interpStage m [] = m ∧
    formatMessage cfg m [] uc jf tr tl
      = truncStage cfg tr tl (userCtxStage uc m) := by
  constructor
  · rfl
  · unfold formatMessage jsonStage
    simp [interpStage]

/-- C9: the user-context stage prepends `"uid: "` (the `str` of the uid
value followed by a colon and space) exactly when a context mapping is
supplied and carries the key `"uid"`; an absent context, or one without
that key, leaves the message unchanged. -/
theorem C9_user_context (uc : List (String × PyVal)) (v : PyVal) (m : String) :
    (uc.lookup "uid" = some v →
      userCtxStage (some uc) m = pyStr v ++ ": " ++ m) ∧
    userCtxStage Option.none m = m ∧
    (uc.lookup "uid" = Option.none → userCtxStage (some uc) m = m) := by
  refine ⟨?_, rfl, ?_⟩
  · intro h
    have hne : uc ≠ [] := by
      intro he
      rw [he] at h
      simp [List.lookup] at h
    simp [userCtxStage, h, hne]
  · intro h
    simp [userCtxStage, h]

/-- C9 witness: the spec's concrete scenario, a context carrying uid
`user123` prefixes the message, giving `user123: Action completed` through
the full pipeline as well. -/
theorem C9_user_context_witness :
    userCtxStage (some [("uid", PyVal.str "user123")]) "Action completed"
      = "user123: Action completed" ∧
    formatMessage ⟨true, 5000⟩ "Action completed" []
        (some [("uid", PyVal.str "user123")]) false Option.none Option.none
      = "user123: Action completed" := by
  constructor
  · exact ((C9_user_context [("uid", PyVal.str "user123")] (PyVal.str "user123")
      "Action completed").1 rfl).trans (by decide)
  · decide

/-- C6: whenever printf-style interpolation of a non-empty argument tuple
succeeds, the interpolation stage yields exactly `template % args`, and the
whole call is that string subjected only to the user-context and truncation
stages. -/
theorem C6_interpolation_success (cfg : LoggerCfg) (m : String)
    (args : List PyVal) (uc : Option (List (String × PyVal)))
    (tr : Option Bool) (tl : Option Nat) (s : List Char) :
    args ≠ [] → pyPrintf m.data args = .ok s →
    interpStage m args = String.mk s ∧
    formatMessage cfg m args uc false tr tl
      = truncStage cfg tr tl (userCtxStage uc (String.mk s)) := by
  intro hne hok
  have hi : interpStage m args = String.mk s := by
    unfold interpStage
    rw [if_pos (by simp [hne]), hok]
  refine ⟨hi, ?_⟩
  unfold formatMessage jsonStage
  simp [hi]

/-- C6 witness: the spec's concrete scenario
`format("Value: %s, Count: %d", ("test", 42))`. -/
theorem C6_interpolation_success_witness :
    interpStage "Value: %s, Count: %d" [PyVal.str "test", PyVal.int 42]
      = "Value: test, Count: 42" ∧
    formatMessage ⟨true, 5000⟩ "Value: %s, Count: %d"
        [PyVal.str "test", PyVal.int 42] Option.none false Option.none Option.none
      = "Value: test, Count: 42" := by
  have h := C6_interpolation_success ⟨true, 5000⟩ "Value: %s, Count: %d"
    [PyVal.str "test", PyVal.int 42] Option.none Option.none Option.none
    "Value: test, Count: 42".data (by simp) rfl
  exact ⟨h.1, h.2.trans (by decide)⟩

/-- Auxiliary: the JSON-error banner sits between known neighbours. -/
theorem marker_split_json :
    (" - [JSON FORMAT ERROR: " : String).data
      = " - ".data ++ "[JSON FORMAT ERROR: ".data := by decide

/-- Auxiliary: the interpolation-error banner sits between known
neighbours. -/
theorem marker_split_fmt :
    (" - [FORMAT ERROR: " : String).data
      = " - ".data ++ "[FORMAT ERROR: ".data := by decide

/-- Auxiliary: the JSON-error message visibly contains its banner. -/
theorem jsonErrorMsg_infix (m e : String) (args : List PyVal) :
    "[JSON FORMAT ERROR: ".data <:+: (jsonErrorMsg m e args).data := by
  refine ⟨m.data ++ " - ".data,
    e.data ++ "] - Args: ".data ++ (pyStrTuple args).data, ?_⟩
  simp [jsonErrorMsg, strData_append, marker_split_json]

/-- Auxiliary: the interpolation-error message visibly contains its
banner. -/
theorem formatErrorMsg_infix (m e : String) (fa : List PyVal) :
    "[FORMAT ERROR: ".data <:+: (formatErrorMsg m e fa).data := by
  refine ⟨m.data ++ " - ".data,
    e.data ++ "] - Args: ".data ++ (pyStrTuple fa).data, ?_⟩
  simp [formatErrorMsg, strData_append, marker_split_fmt]

/-- Auxiliary: the JSON stage encodes each argument independently — the
item encoder is exactly `mapM` of the single-argument `json.dumps` call. -/
theorem jsonEncItems_eq_mapM (lvl : Nat) (xs : List PyVal) :
    jsonEncItems lvl xs = xs.mapM (jsonEnc lvl) := by
  induction xs with
  | nil => rfl
  | cons v rest ih =>
    rw [List.mapM_cons, ← ih]
    cases h : jsonEnc lvl v <;> cases h2 : jsonEncItems lvl rest <;>
      simp [jsonEncItems, h, h2, Bind.bind, Except.bind, Pure.pure, Except.pure]

/-- C3: a malformed call never escapes as an exception — both failure modes
are caught and surfaced inline.  A JSON-stage failure makes the call return
the JSON-error-annotated message (which visibly contains its banner); an
interpolation failure turns the stage-2 output into the
FORMAT-ERROR-annotated message (visibly containing its banner), after which
the call returns that degraded message put through the remaining stages. -/
theorem C3_degraded_never_raises (cfg : LoggerCfg) (m : String)
    (args : List PyVal) (uc : Option (List (String × PyVal))) (jf : Bool)
    (tr : Option Bool) (tl : Option Nat) :
    (∀ e, jsonStage jf args = .error e →
      formatMessage cfg m args uc jf tr tl = jsonErrorMsg m e args ∧
      "[JSON FORMAT ERROR: ".data <:+: (formatMessage cfg m args uc jf tr tl).data) ∧
    (∀ fa e, jsonStage jf args = .ok fa → fa ≠ [] → pyPrintf m.data fa = .error e →
      interpStage m fa = formatErrorMsg m e fa ∧
      "[FORMAT ERROR: ".data <:+: (interpStage m fa).data ∧
      formatMessage cfg m args uc jf tr tl
        = truncStage cfg tr tl (userCtxStage uc (formatErrorMsg m e fa))) := by
  constructor
  · intro e he
    have h1 : formatMessage cfg m args uc jf tr tl = jsonErrorMsg m e args := by
      unfold formatMessage
      rw [he]
    exact ⟨h1, h1 ▸ jsonErrorMsg_infix m e args⟩
  · intro fa e hok hne herr
    have hi : interpStage m fa = formatErrorMsg m e fa := by
      unfold interpStage
      rw [if_pos (by simp [hne]), herr]
    refine ⟨hi, hi ▸ formatErrorMsg_infix m e fa, ?_⟩
    unfold formatMessage
    rw [hok]
    show truncStage cfg tr tl (userCtxStage uc (interpStage m fa)) = _
    rw [hi]

/-- C3 witness: a JSON-encoding failure (a dict keyed by a bare `object()`)
and an interpolation failure (`"%d"` against a string) both return degraded
messages rather than raising. -/
theorem C3_degraded_never_raises_witness :
    formatMessage ⟨true, 5000⟩ "Data: %s"
        [PyVal.dict [(PyVal.obj "<object object at 0x0>", PyVal.str "v")]]
        Option.none true Option.none Option.none
      = jsonErrorMsg "Data: %s" "keys must be str, int, float, bool or None, not object"
          [PyVal.dict [(PyVal.obj "<object object at 0x0>", PyVal.str "v")]] ∧
    interpStage "%d" [PyVal.str "x"]
      = formatErrorMsg "%d" "%d format: a real number is required, not str"
          [PyVal.str "x"] := by
  constructor
  · exact ((C3_degraded_never_raises ⟨true, 5000⟩ "Data: %s"
      [PyVal.dict [(PyVal.obj "<object object at 0x0>", PyVal.str "v")]]
      Option.none true Option.none Option.none).1
      "keys must be str, int, float, bool or None, not object" rfl).1
  · exact ((C3_degraded_never_raises ⟨true, 5000⟩ "%d" [PyVal.str "x"]
      Option.none false Option.none Option.none).2 [PyVal.str "x"]
      "%d format: a real number is required, not str" rfl (by simp) rfl).1

/-- C5: with `jsonFormat` set and a non-empty tuple, the JSON stage encodes
each argument independently (the stage is `mapM` of the pretty-printing
single-argument encoder, in which non-serializable objects degrade to their
`str()` text instead of failing); on success the encoded strings feed the
remaining stages, and on failure the whole call returns the
JSON-error-annotated message immediately, skipping every later stage. -/
theorem C5_json_stage (cfg : LoggerCfg) (m : String) (args : List PyVal)
    (uc : Option (List (String × PyVal))) (tr : Option Bool) (tl : Option Nat)
    (hne : args ≠ []) :
    jsonEncItems 0 args = args.mapM pyJsonDumps ∧
    (∀ encs, jsonEncItems 0 args = .ok encs →
      jsonStage true args = .ok (encs.map PyVal.str) ∧
      formatMessage cfg m args uc true tr tl
        = truncStage cfg tr tl
            (userCtxStage uc (interpStage m (encs.map PyVal.str)))) ∧
    (∀ e, jsonEncItems 0 args = .error e →
      formatMessage cfg m args uc true tr tl = jsonErrorMsg m e args) ∧
    (∀ rep, pyJsonDumps (PyVal.obj rep) = .ok (jsonQuote rep)) := by
  refine ⟨jsonEncItems_eq_mapM 0 args, ?_, ?_, fun rep => rfl⟩
  · intro encs h
    have hs : jsonStage true args = .ok (encs.map PyVal.str) := by
      unfold jsonStage
      rw [if_pos (by simp [hne]), h]
    refine ⟨hs, ?_⟩
    unfold formatMessage
    rw [hs]
  · intro e h
    have hs : jsonStage true args = .error e := by
      unfold jsonStage
      rw [if_pos (by simp [hne]), h]
    unfold formatMessage
    rw [hs]

/-- C5 witness: JSON mode on the mapping from `key` to `value` pretty-prints
with indentation (the final output contains the quoted `key: value` pair),
and a dict keyed by a bare `object()` aborts the call with the
JSON-error-annotated message. -/
theorem C5_json_stage_witness :
    formatMessage ⟨true, 5000⟩ "Received data %s"
        [PyVal.dict [(PyVal.str "key", PyVal.str "value")]]
        Option.none true Option.none Option.none
      = truncStage ⟨true, 5000⟩ Option.none Option.none
          (userCtxStage Option.none
            (interpStage "Received data %s"
              ([("\x7b\n    \"key\": \"value\"\n\x7d" : String)].map PyVal.str))) ∧
    "\"key\": \"value\"".data <:+:
      (formatMessage ⟨true, 5000⟩ "Received data %s"
        [PyVal.dict [(PyVal.str "key", PyVal.str "value")]]
        Option.none true Option.none Option.none).data ∧
    formatMessage ⟨true, 5000⟩ "Data: %s"
        [PyVal.dict [(PyVal.obj "<object object at 0x0>", PyVal.str "v")]]
        Option.none true Option.none Option.none
      = jsonErrorMsg "Data: %s"
          "keys must be str, int, float, bool or None, not object"
          [PyVal.dict [(PyVal.obj "<object object at 0x0>", PyVal.str "v")]] := by
  refine ⟨?_, by decide, ?_⟩
  · exact (((C5_json_stage ⟨true, 5000⟩ "Received data %s"
      [PyVal.dict [(PyVal.str "key", PyVal.str "value")]]
      Option.none Option.none Option.none (by simp)).2.1)
      ["\x7b\n    \"key\": \"value\"\n\x7d"] rfl).2
  · exact ((C5_json_stage ⟨true, 5000⟩ "Data: %s"
      [PyVal.dict [(PyVal.obj "<object object at 0x0>", PyVal.str "v")]]
      Option.none Option.none Option.none (by simp)).2.2.1)
      "keys must be str, int, float, bool or None, not object" rfl

/-- C1 counterexample: with instance truncation `(true, 10)` the call
`_format_message("%d", ("x",))` fails interpolation (the stage produces the
FORMAT-ERROR-annotated message), yet the returned string is a truncated
rendition of that annotated message — truncation does apply after an
interpolation failure, so the failure is not terminal as claimed. -/
theorem C1_counterexample :
    interpStage "%d" [PyVal.str "x"]
      = formatErrorMsg "%d" "%d format: a real number is required, not str"
          [PyVal.str "x"] ∧
    formatMessage ⟨true, 10⟩ "%d" [PyVal.str "x"]
        Option.none false Option.none Option.none
      = "%d - [FORM... [TRUNCATED, LENGTH: 81]" ∧
    formatMessage ⟨true, 10⟩ "%d" [PyVal.str "x"]
        Option.none false Option.none Option.none
      ≠ formatErrorMsg "%d" "%d format: a real number is required, not str"
          [PyVal.str "x"] := by
  decide

/-- C1 as amended: only the JSON stage is terminal — its failure returns
the JSON-error-annotated message with no truncation regardless of the
truncation configuration.  An interpolation failure is not terminal: the
FORMAT-ERROR-annotated message continues through the user-context and
truncation stages, so truncation applies to it when effectively enabled. -/
theorem C1_amended (cfg : LoggerCfg) (m : String) (args : List PyVal)
    (uc : Option (List (String × PyVal))) (jf : Bool)
    (tr : Option Bool) (tl : Option Nat) :
    (∀ e, jsonStage jf args = .error e →
      formatMessage cfg m args uc jf tr tl = jsonErrorMsg m e args) ∧
    (∀ fa e, jsonStage jf args = .ok fa → fa ≠ [] → pyPrintf m.data fa = .error e →
      formatMessage cfg m args uc jf tr tl
        = truncStage cfg tr tl (userCtxStage uc (formatErrorMsg m e fa))) := by
  constructor
  · intro e he
    unfold formatMessage
    rw [he]
  · intro fa e hok hne herr
    unfold formatMessage
    rw [hok]
    show truncStage cfg tr tl (userCtxStage uc (interpStage m fa)) = _
    have hi : interpStage m fa = formatErrorMsg m e fa := by
      unfold interpStage
      rw [if_pos (by simp [hne]), herr]
    rw [hi]

/-- C1 amended witness: a JSON failure under a tiny limit (5) returns the
long annotated message untruncated, while an interpolation failure under
limit 10 goes through the truncation stage. -/
theorem C1_amended_witness :
    formatMessage ⟨true, 5⟩ "Data: %s"
        [PyVal.dict [(PyVal.obj "<object object at 0x0>", PyVal.str "v")]]
        Option.none true Option.none Option.none
      = jsonErrorMsg "Data: %s"
          "keys must be str, int, float, bool or None, not object"
          [PyVal.dict [(PyVal.obj "<object object at 0x0>", PyVal.str "v")]] ∧
    formatMessage ⟨true, 10⟩ "%d" [PyVal.str "x"]
        Option.none false Option.none Option.none
      = truncStage ⟨true, 10⟩ Option.none Option.none
          (userCtxStage Option.none
            (formatErrorMsg "%d" "%d format: a real number is required, not str"
              [PyVal.str "x"])) := by
  constructor
  · exact (C1_amended ⟨true, 5⟩ "Data: %s"
      [PyVal.dict [(PyVal.obj "<object object at 0x0>", PyVal.str "v")]]
      Option.none true Option.none Option.none).1
      "keys must be str, int, float, bool or None, not object" rfl
  · exact (C1_amended ⟨true, 10⟩ "%d" [PyVal.str "x"]
      Option.none false Option.none Option.none).2 [PyVal.str "x"]
      "%d format: a real number is required, not str" rfl (by simp) rfl

/-- C2: a renderer holding an unresolvable zone name emits exactly one
diagnostic on its first rendering, permanently clears the stored zone (the
returned instance holds none), falls back to local time for that call and
never raises (the embedding is a total function); a second rendering on the
resulting instance takes the local-time path with zero further
diagnostics. -/
theorem C2_timezone_fallback (isValid : String → Bool)
    (localText : Nat → String) (zoneText : String → Nat → String)
    (z : String) (t1 t2 : Nat) (hz : isValid z = false) :
    TZFormatter.formatTime isValid localText zoneText ⟨some z⟩ t1
      = (localText t1,
         ["WARNING: Unknown timezone " ++ pyReprStr z ++ ", falling back to local time"],
         ⟨Option.none⟩) ∧
    (TZFormatter.formatTime isValid localText zoneText ⟨some z⟩ t1).2.1.length = 1 ∧
    TZFormatter.formatTime isValid localText zoneText
        (TZFormatter.formatTime isValid localText zoneText ⟨some z⟩ t1).2.2 t2
      = (localText t2, [], ⟨Option.none⟩) := by
  have h1 : TZFormatter.formatTime isValid localText zoneText ⟨some z⟩ t1
      = (localText t1,
         ["WARNING: Unknown timezone " ++ pyReprStr z ++ ", falling back to local time"],
         ⟨Option.none⟩) := by
    simp [TZFormatter.formatTime, hz]
  refine ⟨h1, by rw [h1]; rfl, by rw [h1]; rfl⟩

/-- C2 witness: a concrete unresolvable zone name against concrete local
and zone formatters — one diagnostic, cleared zone, local output, then a
silent second call. -/
theorem C2_timezone_fallback_witness :
    TZFormatter.formatTime (fun _ => false) (fun _ => "2025-01-01 00:00:00")
        (fun _ _ => "zoned") ⟨some "Invalid/Timezone"⟩ 0
      = ("2025-01-01 00:00:00",
         ["WARNING: Unknown timezone " ++ pyReprStr "Invalid/Timezone"
            ++ ", falling back to local time"],
         ⟨Option.none⟩) ∧
    TZFormatter.formatTime (fun _ => false) (fun _ => "2025-01-01 00:00:00")
        (fun _ _ => "zoned")
        (TZFormatter.formatTime (fun _ => false) (fun _ => "2025-01-01 00:00:00")
          (fun _ _ => "zoned") ⟨some "Invalid/Timezone"⟩ 0).2.2 1
      = ("2025-01-01 00:00:00", [], ⟨Option.none⟩) := by
  have h := C2_timezone_fallback (fun _ => false) (fun _ => "2025-01-01 00:00:00")
    (fun _ _ => "zoned") "Invalid/Timezone" 0 1 rfl
  exact ⟨h.1, h.2.2⟩

/-- Auxiliary: skipping to the sequence terminator never lengthens the
list. -/
theorem dropToM_length_le (l : List Char) : (dropToM l).length ≤ l.length := by
  induction l with
  | nil => simp [dropToM]
  | cons c rest ih =>
    simp only [dropToM]
    split
    · simp
    · exact Nat.le_trans ih (Nat.le_succ _)

/-- Auxiliary: the ANSI stripper is fuel-insensitive once the fuel exceeds
the input length. -/
theorem stripAux_irrel (f : Nat) : ∀ (g : Nat) (l : List Char),
    l.length < f → l.length < g → stripAux f l = stripAux g l := by
  induction f with
  | zero => intro g l hf; omega
  | succ f ih =>
    intro g l hf hg
    match g, l with
    | g + 1, [] => rfl
    | g + 1, c :: rest =>
      simp only [stripAux]
      have hr : rest.length < f := by simp at hf; omega
      have hrg : rest.length < g := by simp at hg; omega
      split
      · exact ih g (dropToM rest)
          (Nat.lt_of_le_of_lt (dropToM_length_le rest) hr)
          (Nat.lt_of_le_of_lt (dropToM_length_le rest) hrg)
      · rw [ih g rest hr hrg]

/-- Auxiliary: one-step unfolding of the ANSI stripper. -/
theorem stripAnsiL_cons (c : Char) (l : List Char) :
    stripAnsiL (c :: l)
      = if c = '\x1b' then stripAnsiL (dropToM l) else c :: stripAnsiL l := by
  show stripAux (l.length + 1 + 1) (c :: l) = _
  simp only [stripAux]
  split
  · exact stripAux_irrel _ _ _
      (Nat.lt_of_le_of_lt (dropToM_length_le l) (Nat.lt_succ_self _)) (Nat.lt_succ_self _)
  · rfl

/-- Auxiliary: stripping passes over an escape-free prefix unchanged. -/
theorem stripAnsiL_append_noEsc (a b : List Char) (h : '\x1b' ∉ a) :
    stripAnsiL (a ++ b) = a ++ stripAnsiL b := by
  induction a with
  | nil => rfl
  | cons c rest ih =>
    have hc : c ≠ '\x1b' := fun he => h (he ▸ List.mem_cons_self c rest)
    have hrest : '\x1b' ∉ rest := fun hm => h (List.mem_cons_of_mem c hm)
    simp only [List.cons_append, stripAnsiL_cons, if_neg hc, ih hrest]

/-- Auxiliary: stripping fixes an escape-free list. -/
theorem stripAnsiL_of_noEsc (a : List Char) (h : '\x1b' ∉ a) :
    stripAnsiL a = a := by
  have h2 := stripAnsiL_append_noEsc a [] h
  have h0 : stripAnsiL ([] : List Char) = [] := rfl
  simpa [h0] using h2

/-- Auxiliary: an escape character consumes through the next terminator. -/
theorem stripAnsiL_esc (l : List Char) :
    stripAnsiL ('\x1b' :: l) = stripAnsiL (dropToM l) := by
  rw [stripAnsiL_cons, if_pos rfl]

/-- Auxiliary: a colon survives stripping. -/
theorem strip_colon (l : List Char) :
    stripAnsiL (':' :: l) = ':' :: stripAnsiL l := by
  rw [stripAnsiL_cons, if_neg (by decide)]

/-- Auxiliary: an opening bracket survives stripping. -/
theorem strip_lbracket (l : List Char) :
    stripAnsiL ('[' :: l) = '[' :: stripAnsiL l := by
  rw [stripAnsiL_cons, if_neg (by decide)]

/-- Auxiliary: a closing bracket survives stripping. -/
theorem strip_rbracket (l : List Char) :
    stripAnsiL (']' :: l) = ']' :: stripAnsiL l := by
  rw [stripAnsiL_cons, if_neg (by decide)]

/-- Auxiliary: the reset sequence strips away. -/
theorem strip_seq0m (l : List Char) :
    stripAnsiL ('\x1b' :: '[' :: '0' :: 'm' :: l) = stripAnsiL l := by
  rw [stripAnsiL_esc]
  simp [dropToM]

/-- Auxiliary: the bold sequence strips away. -/
theorem strip_seq1m (l : List Char) :
    stripAnsiL ('\x1b' :: '[' :: '1' :: 'm' :: l) = stripAnsiL l := by
  rw [stripAnsiL_esc]
  simp [dropToM]

/-- Auxiliary: the cyan sequence strips away. -/
theorem strip_seq36m (l : List Char) :
    stripAnsiL ('\x1b' :: '[' :: '3' :: '6' :: 'm' :: l) = stripAnsiL l := by
  rw [stripAnsiL_esc]
  simp [dropToM]

/-- Auxiliary: every severity's color prefix — the five mapped colors and
the reset fallback for unknown severities — strips away. -/
theorem strip_level_color (n : Nat) (l : List Char) :
    stripAnsiL ((LEVEL_COLORS_get n).data ++ l) = stripAnsiL l := by
  unfold LEVEL_COLORS_get
  split
  · show stripAnsiL ('\x1b' :: '[' :: '9' :: '4' :: 'm' :: l) = stripAnsiL l
    rw [stripAnsiL_esc]; simp [dropToM]
  · split
    · show stripAnsiL ('\x1b' :: '[' :: '9' :: '2' :: 'm' :: l) = stripAnsiL l
      rw [stripAnsiL_esc]; simp [dropToM]
    · split
      · show stripAnsiL ('\x1b' :: '[' :: '9' :: '3' :: 'm' :: l) = stripAnsiL l
        rw [stripAnsiL_esc]; simp [dropToM]
      · split
        · show stripAnsiL ('\x1b' :: '[' :: '9' :: '1' :: 'm' :: l) = stripAnsiL l
          rw [stripAnsiL_esc]; simp [dropToM]
        · split
          · show stripAnsiL ('\x1b' :: '[' :: '4' :: '1' :: 'm' ::
              '\x1b' :: '[' :: '3' :: '7' :: 'm' ::
              '\x1b' :: '[' :: '1' :: 'm' :: l) = stripAnsiL l
            simp [stripAnsiL_esc, dropToM]
          · show stripAnsiL ('\x1b' :: '[' :: '0' :: 'm' :: l) = stripAnsiL l
            exact strip_seq0m l

/-- Tokenization of the repository's format string. -/
def baseSegs : List Seg :=
  [Seg.field ['l', 'e', 'v', 'e', 'l', 'n', 'a', 'm', 'e'] 's', Seg.lit [':'], Seg.lit ['['],
   Seg.field ['a', 's', 'c', 't', 'i', 'm', 'e'] 's', Seg.lit [']'],
   Seg.field ['f', 'i', 'l', 'e', 'n', 'a', 'm', 'e'] 's', Seg.lit [':'],
   Seg.field ['l', 'i', 'n', 'e', 'n', 'o'] 'd', Seg.lit [':'],
   Seg.field ['m', 'e', 's', 's', 'a', 'g', 'e'] 's']

/-- Tokenization of the format string after `ColoredFormatter.format`
wraps the location and timestamp tokens in their styling sequences. -/
def coloredSegs : List Seg :=
  [Seg.field ['l', 'e', 'v', 'e', 'l', 'n', 'a', 'm', 'e'] 's', Seg.lit [':'], Seg.lit ['['],
   Seg.lit ['\x1b'], Seg.lit ['['], Seg.lit ['1'], Seg.lit ['m'],
   Seg.field ['a', 's', 'c', 't', 'i', 'm', 'e'] 's',
   Seg.lit ['\x1b'], Seg.lit ['['], Seg.lit ['0'], Seg.lit ['m'],
   Seg.lit [']'],
   Seg.lit ['\x1b'], Seg.lit ['['], Seg.lit ['3'], Seg.lit ['6'], Seg.lit ['m'],
   Seg.field ['f', 'i', 'l', 'e', 'n', 'a', 'm', 'e'] 's', Seg.lit [':'],
   Seg.field ['l', 'i', 'n', 'e', 'n', 'o'] 'd',
   Seg.lit ['\x1b'], Seg.lit ['['], Seg.lit ['0'], Seg.lit ['m'],
   Seg.lit [':'],
   Seg.field ['m', 'e', 's', 's', 'a', 'g', 'e'] 's']

/-- Auxiliary: the base format tokenizes to its segments. -/
theorem tokenize_base : tokenize base_format.data = baseSegs := rfl

/-- Auxiliary: the uncolored path renders the base segments against the
unmodified record. -/
theorem format_plain_data (r : LogRecord) :
    ((ColoredFormatter.format ⟨base_format, false⟩ r).1).data = renderSegs r baseSegs := rfl

/-- Auxiliary: the colored path renders the color-wrapped segments against
the record with its level name wrapped in the severity color. -/
theorem format_colored_data (r : LogRecord) :
    ((ColoredFormatter.format ⟨base_format, true⟩ r).1).data
      = renderSegs
          { r with levelname := LEVEL_COLORS_get r.levelno ++ r.levelname ++ Colors.RESET }
          coloredSegs := rfl

/-- Auxiliary: the level-name field substitutes the record's level name. -/
theorem fieldText_levelname (r : LogRecord) :
    fieldText r ['l', 'e', 'v', 'e', 'l', 'n', 'a', 'm', 'e'] 's' = r.levelname.data := rfl

/-- Auxiliary: the timestamp field substitutes the rendered timestamp. -/
theorem fieldText_asctime (r : LogRecord) :
    fieldText r ['a', 's', 'c', 't', 'i', 'm', 'e'] 's' = r.asctime.data := rfl

/-- Auxiliary: the filename field substitutes the record's filename. -/
theorem fieldText_filename (r : LogRecord) :
    fieldText r ['f', 'i', 'l', 'e', 'n', 'a', 'm', 'e'] 's' = r.filename.data := rfl

/-- Auxiliary: the line-number field substitutes the decimal rendering. -/
theorem fieldText_lineno (r : LogRecord) :
    fieldText r ['l', 'i', 'n', 'e', 'n', 'o'] 'd' = (toString r.lineno).data := rfl

/-- Auxiliary: the message field substitutes the record's message. -/
theorem fieldText_message (r : LogRecord) :
    fieldText r ['m', 'e', 's', 's', 'a', 'g', 'e'] 's' = r.message.data := rfl

/-- Auxiliary: the reset color's characters strip away. -/
theorem strip_reset_data (l : List Char) :
    stripAnsiL (Colors.RESET.data ++ l) = stripAnsiL l :=
  strip_seq0m l

/-- Auxiliary: stripping the colored rendering of an escape-free record
reproduces the plain rendering, for every severity. -/
theorem strip_colored_render (r : LogRecord)
    (h1 : '\x1b' ∉ r.levelname.data) (h2 : '\x1b' ∉ r.asctime.data)
    (h3 : '\x1b' ∉ r.filename.data) (h4 : '\x1b' ∉ (toString r.lineno).data)
    (h5 : '\x1b' ∉ r.message.data) :
    stripAnsiL (renderSegs
        { r with levelname := LEVEL_COLORS_get r.levelno ++ r.levelname ++ Colors.RESET }
        coloredSegs)
      = renderSegs r baseSegs := by
  simp only [renderSegs, coloredSegs, baseSegs, fieldText_levelname, fieldText_asctime,
    fieldText_filename, fieldText_lineno, fieldText_message, strData_append,
    List.append_assoc, List.singleton_append, List.cons_append, List.append_nil,
    List.nil_append]
  simp only [strip_level_color, stripAnsiL_append_noEsc _ _ h1, strip_reset_data, strip_colon,
    strip_lbracket, strip_rbracket, strip_seq0m, strip_seq1m, strip_seq36m,
    stripAnsiL_append_noEsc _ _ h2, stripAnsiL_append_noEsc _ _ h3,
    stripAnsiL_append_noEsc _ _ h4, stripAnsiL_of_noEsc _ h5]

/-- Auxiliary: the uncolored rendering of an escape-free record contains no
escape character. -/
theorem noesc_plain (r : LogRecord)
    (h1 : '\x1b' ∉ r.levelname.data) (h2 : '\x1b' ∉ r.asctime.data)
    (h3 : '\x1b' ∉ r.filename.data) (h4 : '\x1b' ∉ (toString r.lineno).data)
    (h5 : '\x1b' ∉ r.message.data) :
    '\x1b' ∉ ((ColoredFormatter.format ⟨base_format, false⟩ r).1).data := by
  rw [format_plain_data]
  simp only [renderSegs, baseSegs, fieldText_levelname, fieldText_asctime,
    fieldText_filename, fieldText_lineno, fieldText_message,
    List.append_nil, List.nil_append, List.singleton_append, List.cons_append,
    List.append_assoc]
  simp [List.mem_append, List.mem_cons, h1, h2, h3, h4, h5]

/-- C8 counterexample: the claim's universal quantification over records
fails for a record whose message itself carries an ANSI sequence — the
`useColors=false` output then does contain escape sequences, and stripping
the colored output removes them while the uncolored output keeps them, so
the two differ. -/
theorem C8_counterexample :
    '\x1b' ∈ ((ColoredFormatter.format ⟨base_format, false⟩
        ⟨20, "INFO", "ts", "app.py", 42, "\x1b[31mhi\x1b[0m"⟩).1).data ∧
    stripAnsi (ColoredFormatter.format ⟨base_format, true⟩
        ⟨20, "INFO", "ts", "app.py", 42, "\x1b[31mhi\x1b[0m"⟩).1
      ≠ (ColoredFormatter.format ⟨base_format, false⟩
        ⟨20, "INFO", "ts", "app.py", 42, "\x1b[31mhi\x1b[0m"⟩).1 := by
  decide

/-- C8 as amended: for every record whose rendered fields are free of the
escape character and every severity (the five mapped levels and any unknown
severity, which falls back to the reset wrap), formatting with colors and
stripping all ANSI escape sequences is byte-identical to formatting with
`useColors=false`, and the uncolored output contains no escape character at
all. -/
theorem C8_amended (r : LogRecord)
    (h1 : '\x1b' ∉ r.levelname.data) (h2 : '\x1b' ∉ r.asctime.data)
    (h3 : '\x1b' ∉ r.filename.data) (h4 : '\x1b' ∉ (toString r.lineno).data)
    (h5 : '\x1b' ∉ r.message.data) :
    stripAnsi (ColoredFormatter.format ⟨base_format, true⟩ r).1
      = (ColoredFormatter.format ⟨base_format, false⟩ r).1 ∧
    '\x1b' ∉ ((ColoredFormatter.format ⟨base_format, false⟩ r).1).data := by
  refine ⟨?_, noesc_plain r h1 h2 h3 h4 h5⟩
  show String.mk (stripAnsiL ((ColoredFormatter.format ⟨base_format, true⟩ r).1).data) = _
  rw [format_colored_data, strip_colored_render r h1 h2 h3 h4 h5]
  exact congrArg String.mk (format_plain_data r).symm

/-- C8 amended witness: a concrete escape-free INFO record round-trips, and
so does a record with an unmapped severity (7). -/
theorem C8_amended_witness :
    (stripAnsi (ColoredFormatter.format ⟨base_format, true⟩
        ⟨20, "INFO", "2025-01-01 00:00:00", "app.py", 42, "hello"⟩).1
      = (ColoredFormatter.format ⟨base_format, false⟩
        ⟨20, "INFO", "2025-01-01 00:00:00", "app.py", 42, "hello"⟩).1 ∧
    '\x1b' ∉ ((ColoredFormatter.format ⟨base_format, false⟩
        ⟨20, "INFO", "2025-01-01 00:00:00", "app.py", 42, "hello"⟩).1).data) ∧
    stripAnsi (ColoredFormatter.format ⟨base_format, true⟩
        ⟨7, "LVL7", "ts", "a.py", 1, "m"⟩).1
      = (ColoredFormatter.format ⟨base_format, false⟩
        ⟨7, "LVL7", "ts", "a.py", 1, "m"⟩).1 := by
  refine ⟨C8_amended ⟨20, "INFO", "2025-01-01 00:00:00", "app.py", 42, "hello"⟩
    (by decide) (by decide) (by decide) (by decide) (by decide), ?_⟩
  exact (C8_amended ⟨7, "LVL7", "ts", "a.py", 1, "m"⟩
    (by decide) (by decide) (by decide) (by decide) (by decide)).1

/-- C10: with colors enabled the formatter's format string is restored on
return (the returned formatter state equals the original), but the passed
record's level name is permanently overwritten with its color-wrapped form;
formatting the same record object again wraps the already-wrapped name in a
second layer of escape sequences, and the second output differs from the
first. -/
theorem C10_frame_effect (r : LogRecord) :
    (ColoredFormatter.format ⟨base_format, true⟩ r).2.1 = ⟨base_format, true⟩ ∧
    (ColoredFormatter.format ⟨base_format, true⟩ r).2.2
      = { r with levelname := LEVEL_COLORS_get r.levelno ++ r.levelname ++ Colors.RESET } ∧
    (ColoredFormatter.format ⟨base_format, true⟩
        ((ColoredFormatter.format ⟨base_format, true⟩ r).2.2)).2.2.levelname
      = LEVEL_COLORS_get r.levelno
          ++ (LEVEL_COLORS_get r.levelno ++ r.levelname ++ Colors.RESET)
          ++ Colors.RESET ∧
    (ColoredFormatter.format ⟨base_format, true⟩
        ((ColoredFormatter.format ⟨base_format, true⟩ r).2.2)).1
      ≠ (ColoredFormatter.format ⟨base_format, true⟩ r).1 := by
  refine ⟨rfl, rfl, rfl, ?_⟩
  intro heq
  have hr1 : (ColoredFormatter.format ⟨base_format, true⟩ r).2.2
      = { r with levelname := LEVEL_COLORS_get r.levelno ++ r.levelname ++ Colors.RESET } := rfl
  have hlen := congrArg (fun s => s.data.length) heq
  simp only [hr1] at hlen
  simp only [format_colored_data] at hlen
  simp [renderSegs, coloredSegs, fieldText_levelname, fieldText_asctime,
    fieldText_filename, fieldText_lineno, fieldText_message, strData_append,
    List.length_append, show Colors.RESET.length = 4 from rfl] at hlen
  omega
